import Mathlib

/-!
Verification of the LinkedIn API client of the Lead_Finder repository
(`leads/services/linkedin_api.py`): the request builder
(`_build_request_body` plus the limit handling of `fetch_leads`), the
local filter engine (`filter_leads_locally`), the seniority mapping
(`_map_seniority`), and the error handling of `fetch_leads`.

Python strings are modelled as Lean `String`s (ASCII-faithful: `lower`
is `pyLower`, `strip` is `pyStrip`, `s.split()` is `pySplit`, which splits
on whitespace and drops empty tokens, `a in b` is `strIn`).
Python dicts holding the filters and the raw lead records are modelled
as structures of `Option String` / `String` fields, one field per key the
code reads; `dict.get(k, '')` on a missing key is the `Option.getD ""` /
default-empty-string of the model, and Python truthiness of a string
value is the test `≠ ""`.
-/

/-- Python `s.lower()` (ASCII): lowercase every character. Defined by
structural recursion over the character list so that proofs can evaluate
it (core `String.toLower` recurses on byte positions, which the kernel
cannot reduce). -/
def pyLower (s : String) : String :=
  ⟨s.toList.map Char.toLower⟩

/-- Python `s.strip()` (ASCII): drop leading and trailing whitespace. -/
def pyStrip (s : String) : String :=
  ⟨((s.toList.dropWhile Char.isWhitespace).reverse.dropWhile Char.isWhitespace).reverse⟩

/-- Substring helper: does the character list start with the needle? -/
def startsWithL : List Char → List Char → Bool
  | _, [] => true
  | [], _ :: _ => false
  | h :: hs, n :: ns => h == n && startsWithL hs ns

/-- Substring helper: does the needle occur somewhere in the haystack? -/
def hasSubL : List Char → List Char → Bool
  | [], n => n.isEmpty
  | h :: t, n => startsWithL (h :: t) n || hasSubL t n

/-- Python `needle in hay` on strings: substring containment. -/
def strIn (needle hay : String) : Bool :=
  hasSubL hay.toList needle.toList

/-- Worker for `pySplit`: collect maximal runs of non-whitespace. -/
def pySplitGo : List Char → List Char → List String
  | [], acc => if acc.isEmpty then [] else [⟨acc.reverse⟩]
  | c :: cs, acc =>
      if c.isWhitespace then
        (if acc.isEmpty then pySplitGo cs [] else (⟨acc.reverse⟩ : String) :: pySplitGo cs [])
      else pySplitGo cs (c :: acc)

/-- Python `s.split()`: split on whitespace runs, discarding empty tokens. -/
def pySplit (s : String) : List String :=
  pySplitGo s.toList []

/-- Numeric value of a list of decimal digits. -/
def digitsVal (cs : List Char) : Nat :=
  cs.foldl (fun a c => a * 10 + (c.toNat - 48)) 0

/-- Python `int(s)` on a string: strip whitespace, optional sign, decimal
digits; `none` models the `ValueError` raised on anything else. -/
def pyInt (s : String) : Option Int :=
  match (pyStrip s).toList with
  | '+' :: ds =>
      if !ds.isEmpty && ds.all Char.isDigit then some (digitsVal ds) else none
  | '-' :: ds =>
      if !ds.isEmpty && ds.all Char.isDigit then some (-(digitsVal ds : Int)) else none
  | ds =>
      if !ds.isEmpty && ds.all Char.isDigit then some (digitsVal ds) else none

/-- Python `str.title()`: each alphabetic character is uppercased when the
previous character is not alphabetic and lowercased otherwise. -/
def pyTitleGo : Bool → List Char → List Char
  | _, [] => []
  | prevAlpha, c :: cs =>
      (if c.isAlpha then (if prevAlpha then c.toLower else c.toUpper) else c)
        :: pyTitleGo c.isAlpha cs

/-- Python `s.title()` on a string. -/
def pyTitle (s : String) : String :=
  ⟨pyTitleGo false s.toList⟩

/-- The filter mapping handed to `fetch_leads` / `filter_leads_locally`:
one optional field per key the code reads (`none` = key absent). -/
structure FilterSet where
  name : Option String := none
  title : Option String := none
  company : Option String := none
  location : Option String := none
  region : Option String := none
  seniority_level : Option String := none
  company_size : Option String := none
  industry : Option String := none
  keywords : Option String := none
  limit : Option String := none
deriving DecidableEq

/-- A raw upstream lead record: one field per key `filter_leads_locally`
reads via `lead.get(k, '')` (a missing key is the empty string). -/
structure Lead where
  name : String := ""
  surname : String := ""
  position : String := ""
  company_name : String := ""
  location : String := ""
  region : String := ""
  level : String := ""
  company_headcount : String := ""
  company_industry : String := ""
  skills : String := ""
  headline : String := ""
  bio : String := ""
deriving DecidableEq

/-- Python truthiness of `filters.get(k)`: the key is present with a
non-empty string value. -/
def truthy (o : Option String) : Bool := o.getD "" != ""

/-- Python `if not filters:` — the filter dict is empty. -/
def fsIsEmpty (fs : FilterSet) : Bool :=
  fs.name.isNone && fs.title.isNone && fs.company.isNone && fs.location.isNone &&
  fs.region.isNone && fs.seniority_level.isNone && fs.company_size.isNone &&
  fs.industry.isNone && fs.keywords.isNone && fs.limit.isNone

/-- The `seniority_map` dict of `_build_request_body`. -/
def seniorityRequestMap : List (String × String) :=
  [("entry", "Entry Level"), ("mid", "Mid Level"), ("senior", "Senior"),
   ("specialist", "Specialist"), ("manager", "Manager"), ("director", "Director"),
   ("head", "Head"), ("vp", "VP"), ("c_level", "C-Level"), ("owner", "Owner"),
   ("partner", "Partner"), ("intern", "Intern")]

/-- The upstream request body: the keys `_build_request_body` /
`fetch_leads` may set (`none` = key absent from the dict). -/
structure RequestBody where
  location : Option (List String) := none
  position : Option (List String) := none
  level : Option (List String) := none
  company_industry : Option (List String) := none
  limit : Option Int := none
deriving DecidableEq

/-- `LinkedInAPIService._build_request_body`: pick the first present filter
in priority order location > title > seniority_level > industry, encode it
as a single-element array; otherwise an empty body. -/
def build_request_body (fs : FilterSet) : RequestBody :=
  if truthy fs.location then { location := some [fs.location.getD ""] }
  else if truthy fs.title then { position := some [fs.title.getD ""] }
  else if truthy fs.seniority_level then
    { level := some [((seniorityRequestMap.lookup (fs.seniority_level.getD "")).getD
        (pyTitle (fs.seniority_level.getD "")))] }
  else if truthy fs.industry then { company_industry := some [fs.industry.getD ""] }
  else {}

/-- The `mapping` dict of `_map_seniority`. -/
def seniorityMapping : List (String × String) :=
  [("entry", "entry"), ("entry level", "entry"), ("junior", "entry"),
   ("intern", "intern"),
   ("mid", "mid"), ("mid level", "mid"), ("intermediate", "mid"),
   ("senior", "senior"), ("sr", "senior"), ("senior level", "senior"),
   ("specialist", "specialist"),
   ("manager", "manager"), ("mgr", "manager"), ("head", "head"),
   ("director", "director"), ("dir", "director"),
   ("vp", "vp"), ("vice president", "vp"),
   ("c-level", "c_level"), ("c level", "c_level"), ("executive", "c_level"),
   ("ceo", "c_level"), ("cto", "c_level"), ("cfo", "c_level"),
   ("coo", "c_level"), ("cmo", "c_level"),
   ("owner", "owner"), ("founder", "owner"),
   ("partner", "partner")]

/-- `LinkedInAPIService._map_seniority`: lowercase and strip the raw level,
look it up in the fixed table, default to the empty string. -/
def map_seniority (api_level : String) : String :=
  if api_level == "" then ""
  else (seniorityMapping.lookup (pyStrip (pyLower api_level))).getD ""

/-- A conditional filter stage of `filter_leads_locally`:
`if guard: filtered = [x for x in filtered if pred(x)]`. -/
def condFilter (b : Bool) (p : Lead → Bool) (l : List Lead) : List Lead :=
  if b then l.filter p else l

/-- `name_query = filters.get('name', '').lower().strip()`. -/
def nameQuery (fs : FilterSet) : String := pyStrip (pyLower (fs.name.getD ""))

/-- Guard of the name stage: `if name_query:`. -/
def nameGuard (fs : FilterSet) : Bool := nameQuery fs != ""

/-- Name predicate: every token of the query is a substring of
`f"{name} {surname}".lower()`. -/
def namePred (fs : FilterSet) (lead : Lead) : Bool :=
  (pySplit (nameQuery fs)).all
    (fun tok => strIn tok (pyLower (lead.name ++ " " ++ lead.surname)))

/-- `title = filters.get('title', '').lower().strip()`. -/
def titleQuery (fs : FilterSet) : String := pyStrip (pyLower (fs.title.getD ""))

/-- Guard of the title stage. -/
def titleGuard (fs : FilterSet) : Bool := titleQuery fs != ""

/-- Title predicate: `title in lead.get('position', '').lower()`. -/
def titlePred (fs : FilterSet) (lead : Lead) : Bool :=
  strIn (titleQuery fs) (pyLower lead.position)

/-- `company = filters.get('company', '').lower()` (source applies no strip). -/
def companyQuery (fs : FilterSet) : String := pyLower (fs.company.getD "")

/-- Guard of the company stage. -/
def companyGuard (fs : FilterSet) : Bool := companyQuery fs != ""

/-- Company predicate: `company in lead.get('company_name', '').lower()`. -/
def companyPred (fs : FilterSet) (lead : Lead) : Bool :=
  strIn (companyQuery fs) (pyLower lead.company_name)

/-- `location = filters.get('location', '').lower().strip()`. -/
def locationQuery (fs : FilterSet) : String := pyStrip (pyLower (fs.location.getD ""))

/-- Guard of the location stage. -/
def locationGuard (fs : FilterSet) : Bool := locationQuery fs != ""

/-- Location predicate: `location in lead.get('location', '').lower()`. -/
def locationPred (fs : FilterSet) (lead : Lead) : Bool :=
  strIn (locationQuery fs) (pyLower lead.location)

/-- Region query after the synonym normalization
`if region == 'north america': region = 'northern america'`. -/
def regionQuery (fs : FilterSet) : String :=
  let r := pyStrip (pyLower (fs.region.getD ""))
  if r == "north america" then "northern america" else r

/-- Guard of the region stage: `if region:` (checked after normalization). -/
def regionGuard (fs : FilterSet) : Bool := regionQuery fs != ""

/-- Region predicate: the query occurs in `region.lower()` or in
`location.lower()`. -/
def regionPred (fs : FilterSet) (lead : Lead) : Bool :=
  strIn (regionQuery fs) (pyLower lead.region) || strIn (regionQuery fs) (pyLower lead.location)

/-- Guard of the seniority stage: `if seniority:` on the raw value. -/
def seniorityGuard (fs : FilterSet) : Bool := truthy fs.seniority_level

/-- Seniority predicate: `_map_seniority(lead.get('level', '')) == seniority`. -/
def seniorityPred (fs : FilterSet) (lead : Lead) : Bool :=
  map_seniority lead.level == fs.seniority_level.getD ""

/-- Guard of the company-size stage: `if company_size:`. -/
def companySizeGuard (fs : FilterSet) : Bool := truthy fs.company_size

/-- Company-size predicate: exact equality with `company_headcount`. -/
def companySizePred (fs : FilterSet) (lead : Lead) : Bool :=
  lead.company_headcount == fs.company_size.getD ""

/-- `industry_filter = filters.get('industry', '').lower()`. -/
def industryQuery (fs : FilterSet) : String := pyLower (fs.industry.getD "")

/-- Guard of the industry stage, collapsing the source's nested conditionals
`if not filters.get('industry'):` and `if industry_filter:`. -/
def industryGuard (fs : FilterSet) : Bool :=
  !(truthy fs.industry) && (industryQuery fs != "")

/-- Industry predicate: `industry_filter in lead.get('company_industry', '').lower()`. -/
def industryPred (fs : FilterSet) (lead : Lead) : Bool :=
  strIn (industryQuery fs) (pyLower lead.company_industry)

/-- `keywords = filters.get('keywords', '').lower().strip()`. -/
def keywordsQuery (fs : FilterSet) : String := pyStrip (pyLower (fs.keywords.getD ""))

/-- Guard of the keywords stage. -/
def keywordsGuard (fs : FilterSet) : Bool := keywordsQuery fs != ""

/-- Haystack of the keywords stage: skills, headline, position, bio,
company_industry and company_name joined by single spaces, lowercased. -/
def keywordsHay (lead : Lead) : String :=
  pyLower (lead.skills ++ " " ++ lead.headline ++ " " ++ lead.position ++ " " ++
   lead.bio ++ " " ++ lead.company_industry ++ " " ++ lead.company_name)

/-- Keywords predicate: every token occurs in the joined haystack. -/
def keywordsPred (fs : FilterSet) (lead : Lead) : Bool :=
  (pySplit (keywordsQuery fs)).all (fun tok => strIn tok (keywordsHay lead))

/-- `LinkedInAPIService.filter_leads_locally`: the client-side filter
pipeline, applied in source order (name, title, company, location, region,
seniority, company size, industry, keywords). -/
def filter_leads_locally (leads : List Lead) (filters : FilterSet) : List Lead :=
  if fsIsEmpty filters then leads
  else
    condFilter (keywordsGuard filters) (keywordsPred filters)
      (condFilter (industryGuard filters) (industryPred filters)
        (condFilter (companySizeGuard filters) (companySizePred filters)
          (condFilter (seniorityGuard filters) (seniorityPred filters)
            (condFilter (regionGuard filters) (regionPred filters)
              (condFilter (locationGuard filters) (locationPred filters)
                (condFilter (companyGuard filters) (companyPred filters)
                  (condFilter (titleGuard filters) (titlePred filters)
                    (condFilter (nameGuard filters) (namePred filters) leads))))))))

/-- Message of the `ValueError` Python's `int` raises on a bad literal. -/
def pyIntErrMsg (s : String) : String :=
  "invalid literal for int() with base 10: '" ++ s ++ "'"

/-- Limit computation of `fetch_leads`:
`requested_limit = int(filters.get('limit', 500)); min(requested_limit, 1000)`;
an unparsable value raises (modelled as `Except.error`). -/
def limitOf (fs : FilterSet) : Except String Int :=
  match fs.limit with
  | none => Except.ok (min 500 1000)
  | some s =>
      match pyInt s with
      | some n => Except.ok (min n 1000)
      | none => Except.error (pyIntErrMsg s)

/-- The body actually sent: `_build_request_body` plus `body['limit']`. -/
def bodyWithLimit (fs : FilterSet) (lim : Int) : RequestBody :=
  { build_request_body fs with limit := some lim }

/-- The request body `fetch_leads` sends upstream, `none` when the limit
computation raises before any request is made. -/
def sentBody (fs : FilterSet) : Option RequestBody :=
  (limitOf fs).toOption.map (bodyWithLimit fs)

/-- Abstract outcome of the network call in `fetch_leads`: a transport
timeout, another transport error, or an HTTP response with a status, a
body text, and the decoded `results` list (`none` = undecodable JSON). -/
inductive HttpOutcome where
  | timeout
  | connError (msg : String)
  | response (status : Nat) (text : String) (json : Option (List Lead))
deriving DecidableEq

/-- The tagged result dict `fetch_leads` returns. -/
structure FetchResult where
  success : Bool
  error : Option String
  results : List Lead
deriving DecidableEq

/-- `LinkedInAPIService.fetch_leads` as a function of the filters and the
abstract outcome of the single HTTP call: compute the limit (an unparsable
limit raises into the generic handler before any request), then dispatch
on the outcome, filtering a decoded result list locally when the filter
dict is non-empty. -/
def fetch_leads (fs : FilterSet) (out : HttpOutcome) : FetchResult :=
  match limitOf fs with
  | Except.error e =>
      { success := false, error := some ("Unexpected Error: " ++ e), results := [] }
  | Except.ok _ =>
      match out with
      | HttpOutcome.timeout =>
          { success := false, error := some "API Connection Timeout", results := [] }
      | HttpOutcome.connError e =>
          { success := false, error := some ("API Connection Error: " ++ e), results := [] }
      | HttpOutcome.response status text j =>
          if status != 200 then
            { success := false,
              error := some ("API Error " ++ toString status ++ ": " ++ text),
              results := [] }
          else
            match j with
            | none =>
                { success := false, error := some "Invalid JSON response from API",
                  results := [] }
            | some results =>
                { success := true, error := none,
                  results := if fsIsEmpty fs then results
                             else filter_leads_locally results fs }

/-- Number of the four priority filters present and non-empty. -/
def priorityCount (fs : FilterSet) : Nat :=
  (if truthy fs.location then 1 else 0) + (if truthy fs.title then 1 else 0) +
  (if truthy fs.seniority_level then 1 else 0) + (if truthy fs.industry then 1 else 0)

/-- Number of filter keys (other than `limit`) set in a request body. -/
def bodyFilterCount (b : RequestBody) : Nat :=
  (if b.location.isSome then 1 else 0) + (if b.position.isSome then 1 else 0) +
  (if b.level.isSome then 1 else 0) + (if b.company_industry.isSome then 1 else 0)

/-- Example record of the spec's token-matching scenario. -/
def johnDoe : Lead := { name := "John", surname := "Doe" }

/-- Example record with the abbreviated seniority level `"Sr"`. -/
def srLead : Lead := { level := "Sr" }

/-- Example record whose region field is `"Northern America"`. -/
def northLead : Lead := { region := "Northern America" }

/-- Example record used to witness idempotence of the local filtering. -/
def engLead : Lead := { position := "Software Engineer" }

/-- A conditional filter stage only ever removes elements. -/
theorem condFilter_sublist (b : Bool) (p : Lead → Bool) (l : List Lead) :
    List.Sublist (condFilter b p l) l := by
  cases b
  · exact List.Sublist.refl l
  · exact List.filter_sublist l

/-- A conditional filter stage is an unconditional filter with a guarded
predicate. -/
theorem condFilter_eq (b : Bool) (p : Lead → Bool) (l : List Lead) :
    condFilter b p l = l.filter (fun x => !b || p x) := by
  cases b
  · simp [condFilter]
  · simp [condFilter]

/-- The conjunction of all (guarded) stage predicates of
`filter_leads_locally`, grouped as the sequential stages compose. -/
def localPass (fs : FilterSet) (x : Lead) : Bool :=
  (!keywordsGuard fs || keywordsPred fs x) &&
  ((!industryGuard fs || industryPred fs x) &&
   ((!companySizeGuard fs || companySizePred fs x) &&
    ((!seniorityGuard fs || seniorityPred fs x) &&
     ((!regionGuard fs || regionPred fs x) &&
      ((!locationGuard fs || locationPred fs x) &&
       ((!companyGuard fs || companyPred fs x) &&
        ((!titleGuard fs || titlePred fs x) &&
         (!nameGuard fs || namePred fs x))))))))

/-- On a non-empty FilterSet the whole local pipeline is one `List.filter`
by the conjunction of the stage predicates. -/
theorem filter_locally_eq (fs : FilterSet) (h : fsIsEmpty fs = false)
    (l : List Lead) : filter_leads_locally l fs = l.filter (localPass fs) := by
  unfold filter_leads_locally
  rw [h]
  simp only [Bool.false_eq_true, if_false, condFilter_eq, List.filter_filter]
  rfl

/-- A singleton list passes the local pipeline iff the combined predicate
holds of its one element. -/
theorem filter_locally_singleton (fs : FilterSet) (h : fsIsEmpty fs = false)
    (x : Lead) :
    filter_leads_locally [x] fs = if localPass fs x then [x] else [] := by
  cases hp : localPass fs x <;>
    simp [filter_locally_eq fs h, List.filter_cons, hp]

/-- C4: the Local Filter Engine applied with an empty FilterSet returns
every record list unchanged (identity law). -/
theorem c4_empty_filters_identity (l : List Lead) :
    filter_leads_locally l {} = l := rfl

/-- C5: the Local Filter Engine is idempotent — applying it twice with the
same non-empty FilterSet equals applying it once. -/
theorem c5_filter_idempotent (l : List Lead) (fs : FilterSet)
    (h : fsIsEmpty fs = false) :
    filter_leads_locally (filter_leads_locally l fs) fs =
      filter_leads_locally l fs := by
  rw [filter_locally_eq fs h, filter_locally_eq fs h, List.filter_filter]
  exact List.filter_congr fun x _ => Bool.and_self _

/-- C5 witness: idempotence instantiated at a concrete record and a
concrete non-empty FilterSet. -/
theorem c5_filter_idempotent_witness :
    filter_leads_locally
        (filter_leads_locally [engLead] { title := some "engineer" })
        { title := some "engineer" } =
      filter_leads_locally [engLead] { title := some "engineer" } :=
  c5_filter_idempotent [engLead] { title := some "engineer" } rfl

/-- C10: the output of the Local Filter Engine is an order-preserving
subsequence of its input — a `List.Sublist` — so every output record
occurs in the input, multiplicities never grow, and the length never
grows. -/
theorem c10_output_sublist (l : List Lead) (fs : FilterSet) :
    List.Sublist (filter_leads_locally l fs) l ∧
    (filter_leads_locally l fs).length ≤ l.length ∧
    (∀ r, r ∈ filter_leads_locally l fs → r ∈ l) ∧
    (∀ r, (filter_leads_locally l fs).count r ≤ l.count r) := by
  have hs : List.Sublist (filter_leads_locally l fs) l := by
    unfold filter_leads_locally
    cases h : fsIsEmpty fs
    · simp only [Bool.false_eq_true, if_false]
      exact (condFilter_sublist _ _ _).trans ((condFilter_sublist _ _ _).trans
        ((condFilter_sublist _ _ _).trans ((condFilter_sublist _ _ _).trans
          ((condFilter_sublist _ _ _).trans ((condFilter_sublist _ _ _).trans
            ((condFilter_sublist _ _ _).trans ((condFilter_sublist _ _ _).trans
              (condFilter_sublist _ _ _))))))))
    · simp
  exact ⟨hs, hs.length_le, fun r hr => hs.subset hr, fun r => hs.count_le r⟩

/-- C1: the upstream payload always carries the limit key; with two or more
priority filters present it carries exactly one filter key — the first
present one in the order location > title > seniority_level > industry —
as a single-element array and nothing else; with no priority filter
present it carries only the limit key. -/
theorem c1_single_priority_filter (fs : FilterSet) (lim : Int) :
    ((bodyWithLimit fs lim).limit = some lim) ∧
    (2 ≤ priorityCount fs → bodyFilterCount (bodyWithLimit fs lim) = 1) ∧
    (truthy fs.location = true →
      (bodyWithLimit fs lim).location = some [fs.location.getD ""] ∧
      (bodyWithLimit fs lim).position = none ∧
      (bodyWithLimit fs lim).level = none ∧
      (bodyWithLimit fs lim).company_industry = none) ∧
    (truthy fs.location = false → truthy fs.title = true →
      (bodyWithLimit fs lim).position = some [fs.title.getD ""] ∧
      (bodyWithLimit fs lim).location = none ∧
      (bodyWithLimit fs lim).level = none ∧
      (bodyWithLimit fs lim).company_industry = none) ∧
    (truthy fs.location = false → truthy fs.title = false →
        truthy fs.seniority_level = true →
      (∃ v, (bodyWithLimit fs lim).level = some [v]) ∧
      (bodyWithLimit fs lim).location = none ∧
      (bodyWithLimit fs lim).position = none ∧
      (bodyWithLimit fs lim).company_industry = none) ∧
    (truthy fs.location = false → truthy fs.title = false →
        truthy fs.seniority_level = false → truthy fs.industry = true →
      (bodyWithLimit fs lim).company_industry = some [fs.industry.getD ""] ∧
      (bodyWithLimit fs lim).location = none ∧
      (bodyWithLimit fs lim).position = none ∧
      (bodyWithLimit fs lim).level = none) ∧
    (priorityCount fs = 0 → bodyWithLimit fs lim = { limit := some lim }) := by
  cases hl : truthy fs.location <;> cases ht : truthy fs.title <;>
    cases hsl : truthy fs.seniority_level <;> cases hi : truthy fs.industry <;>
      simp [bodyWithLimit, build_request_body, priorityCount, bodyFilterCount,
        hl, ht, hsl, hi]

/-- FilterSet with two priority filters, used to witness the C1 theorem. -/
def c1fs : FilterSet := { location := some "United States", title := some "Engineer" }

/-- C1 witness: with location and title both set, the payload carries the
location filter alone (single-element array) plus the limit. -/
theorem c1_single_priority_filter_witness :
    bodyFilterCount (bodyWithLimit c1fs 50) = 1 ∧
    (bodyWithLimit c1fs 50).location = some ["United States"] ∧
    (bodyWithLimit c1fs 50).limit = some 50 := by
  have h := c1_single_priority_filter c1fs 50
  exact ⟨h.2.1 (by decide), (h.2.2.1 (by decide)).1, h.1⟩

/-- C6: the name and keywords filters have AND semantics over
whitespace-separated lowercase tokens — a record passes the name filter
iff every token of the query occurs in the lowercase concatenation of its
first and last name, and passes the keywords filter iff every token occurs
in the lowercase concatenation of skills, headline, position, bio,
company_industry and company_name; John/Doe matches "doe john" and not
"doe jane". -/
theorem c6_token_and_semantics (lead : Lead) (qn qk : String)
    (hn : pyStrip (pyLower qn) ≠ "") (hk : pyStrip (pyLower qk) ≠ "") :
    (filter_leads_locally [lead] { name := some qn } = [lead] ↔
      ∀ tok ∈ pySplit (pyStrip (pyLower qn)),
        strIn tok (pyLower (lead.name ++ " " ++ lead.surname)) = true) ∧
    (filter_leads_locally [lead] { keywords := some qk } = [lead] ↔
      ∀ tok ∈ pySplit (pyStrip (pyLower qk)),
        strIn tok (pyLower (lead.skills ++ " " ++ lead.headline ++ " " ++
          lead.position ++ " " ++ lead.bio ++ " " ++ lead.company_industry ++ " " ++
          lead.company_name)) = true) ∧
    filter_leads_locally [johnDoe] { name := some "doe john" } = [johnDoe] ∧
    filter_leads_locally [johnDoe] { name := some "doe jane" } = [] := by
  have hiff : ∀ b : Bool, ((if b then [lead] else []) = [lead]) ↔ b = true := by
    intro b; cases b <;> simp
  refine ⟨?_, ?_, by decide, by decide⟩
  · have hg : nameGuard { name := some qn } = true := by
      simp [nameGuard, nameQuery, hn]
    have hlp : localPass { name := some qn } lead
        = namePred { name := some qn } lead := by
      show (!nameGuard { name := some qn } || namePred { name := some qn } lead) = _
      rw [hg]; rfl
    rw [filter_locally_singleton { name := some qn } rfl, hlp, hiff]
    simp [namePred, nameQuery]
  · have hg : keywordsGuard { keywords := some qk } = true := by
      simp [keywordsGuard, keywordsQuery, hk]
    have hlp : localPass { keywords := some qk } lead
        = keywordsPred { keywords := some qk } lead := by
      simp [localPass, hg,
        show industryGuard { keywords := some qk } = false from rfl,
        show companySizeGuard { keywords := some qk } = false from rfl,
        show seniorityGuard { keywords := some qk } = false from rfl,
        show regionGuard { keywords := some qk } = false from rfl,
        show locationGuard { keywords := some qk } = false from rfl,
        show companyGuard { keywords := some qk } = false from rfl,
        show titleGuard { keywords := some qk } = false from rfl,
        show nameGuard { keywords := some qk } = false from rfl]
    rw [filter_locally_singleton { keywords := some qk } rfl, hlp, hiff]
    simp [keywordsPred, keywordsQuery, keywordsHay]

/-- C6 witness: the name-filter characterization applied at the concrete
record John/Doe with query "doe john". -/
theorem c6_witness :
    filter_leads_locally [johnDoe] { name := some "doe john" } = [johnDoe] :=
  (c6_token_and_semantics johnDoe "doe john" "x" (by decide) (by decide)).1.mpr
    (by decide)

/-- C7: the region predicate first normalizes the query "north america"
to "northern america" and then matches iff the lowercased query occurs in
the record's lowercased region field or its lowercased location field; in
particular "north america" matches a record with region "Northern
America". -/
theorem c7_region_synonym (lead : Lead) (q : String)
    (h : pyStrip (pyLower q) ≠ "") :
    (regionQuery { region := some q } =
      (if pyStrip (pyLower q) == "north america" then "northern america"
       else pyStrip (pyLower q))) ∧
    (filter_leads_locally [lead] { region := some q } = [lead] ↔
      (strIn (regionQuery { region := some q }) (pyLower lead.region) = true ∨
       strIn (regionQuery { region := some q }) (pyLower lead.location) = true)) ∧
    filter_leads_locally [northLead] { region := some "north america" }
      = [northLead] := by
  have hiff : ∀ b : Bool, ((if b then [lead] else []) = [lead]) ↔ b = true := by
    intro b; cases b <;> simp
  refine ⟨rfl, ?_, by decide⟩
  have hg : regionGuard { region := some q } = true := by
    unfold regionGuard regionQuery
    simp only [Option.getD_some, bne_iff_ne, ne_eq]
    by_cases hc : pyStrip (pyLower q) = "north america"
    · simp [hc]
    · simp [hc, h]
  have hlp : localPass { region := some q } lead
      = regionPred { region := some q } lead := by
    simp [localPass, hg,
      show keywordsGuard { region := some q } = false from rfl,
      show industryGuard { region := some q } = false from rfl,
      show companySizeGuard { region := some q } = false from rfl,
      show seniorityGuard { region := some q } = false from rfl,
      show locationGuard { region := some q } = false from rfl,
      show companyGuard { region := some q } = false from rfl,
      show titleGuard { region := some q } = false from rfl,
      show nameGuard { region := some q } = false from rfl]
  rw [filter_locally_singleton { region := some q } rfl, hlp, hiff]
  simp [regionPred]

/-- C8: a record passes the seniority_level filter iff mapping its raw
level through the lookup table (lowercased, trimmed) yields exactly the
requested code; a record with level "Sr" passes "senior" and fails
"mid". -/
theorem c8_seniority_exact (lead : Lead) (c : String) (hc : c ≠ "") :
    (filter_leads_locally [lead] { seniority_level := some c } = [lead] ↔
      map_seniority lead.level = c) ∧
    filter_leads_locally [srLead] { seniority_level := some "senior" }
      = [srLead] ∧
    filter_leads_locally [srLead] { seniority_level := some "mid" } = [] := by
  have hiff : ∀ b : Bool, ((if b then [lead] else []) = [lead]) ↔ b = true := by
    intro b; cases b <;> simp
  refine ⟨?_, by decide, by decide⟩
  have hg : seniorityGuard { seniority_level := some c } = true := by
    simp [seniorityGuard, truthy, hc]
  have hlp : localPass { seniority_level := some c } lead
      = seniorityPred { seniority_level := some c } lead := by
    simp [localPass, hg,
      show keywordsGuard { seniority_level := some c } = false from rfl,
      show industryGuard { seniority_level := some c } = false from rfl,
      show companySizeGuard { seniority_level := some c } = false from rfl,
      show regionGuard { seniority_level := some c } = false from rfl,
      show locationGuard { seniority_level := some c } = false from rfl,
      show companyGuard { seniority_level := some c } = false from rfl,
      show titleGuard { seniority_level := some c } = false from rfl,
      show nameGuard { seniority_level := some c } = false from rfl]
  rw [filter_locally_singleton { seniority_level := some c } rfl, hlp, hiff]
  simp [seniorityPred]

/-- C7 witness: the region theorem applied at the record with region
"Northern America" and the query "north america". -/
theorem c7_witness :
    filter_leads_locally [northLead] { region := some "north america" }
      = [northLead] :=
  (c7_region_synonym northLead "north america" (by decide)).2.2

/-- C8 witness: the seniority theorem applied at the record with level
"Sr" and the requested code "senior". -/
theorem c8_witness :
    filter_leads_locally [srLead] { seniority_level := some "senior" }
      = [srLead] :=
  (c8_seniority_exact srLead "senior" (by decide)).2.1

/-- A list prefixed by the needle starts with the needle. -/
theorem startsWithL_self_append (n suf : List Char) :
    startsWithL (n ++ suf) n = true := by
  induction n with
  | nil => cases suf <;> rfl
  | cons c cs ih => simp [startsWithL, ih]

/-- The empty needle occurs in every haystack. -/
theorem hasSubL_nil (hay : List Char) : hasSubL hay [] = true := by
  cases hay <;> simp [hasSubL, startsWithL]

/-- A needle occurs in any haystack that sandwiches it. -/
theorem hasSubL_append (pre n suf : List Char) :
    hasSubL (pre ++ n ++ suf) n = true := by
  induction pre with
  | nil =>
      cases n with
      | nil => simpa using hasSubL_nil suf
      | cons c cs =>
          simp only [List.nil_append, List.cons_append, hasSubL, Bool.or_eq_true]
          left
          exact startsWithL_self_append (c :: cs) suf
  | cons p pt ih =>
      simp only [List.cons_append, hasSubL, Bool.or_eq_true]
      right
      exact ih

/-- String version: `n` is a substring of `pre ++ n ++ suf`. -/
theorem strIn_sandwich (pre n suf : String) :
    strIn n (pre ++ n ++ suf) = true := by
  have h : (pre ++ n ++ suf).toList = (pre.toList ++ n.toList) ++ suf.toList := by
    simp [String.toList]
  unfold strIn
  rw [h]
  exact hasSubL_append _ _ _

/-- String version: `n` is a substring of `pre ++ n`. -/
theorem strIn_suffix (pre n : String) : strIn n (pre ++ n) = true := by
  have h : (pre ++ n).toList = (pre.toList ++ n.toList) ++ [] := by
    simp [String.toList]
  unfold strIn
  rw [h]
  exact hasSubL_append _ _ _

/-- The status code and the response body both occur in the error string
`fetch_leads` builds for a non-200 response. -/
theorem strIn_api_error (s text : String) :
    strIn s ("API Error " ++ s ++ ": " ++ text) = true ∧
    strIn text ("API Error " ++ s ++ ": " ++ text) = true := by
  constructor
  · have h := strIn_sandwich "API Error " s (": " ++ text)
    rwa [← String.append_assoc] at h
  · exact strIn_suffix ("API Error " ++ s ++ ": ") text

/-- C9: `fetch_leads` always returns a tagged result (success with no
error, or failure with an error string and empty results); a non-2xx
response yields a failure whose error contains the status code and the
response body; a timeout yields the timeout failure; an undecodable body
yields the invalid-response failure. -/
theorem c9_tagged_errors (fs : FilterSet) (lim : Int)
    (hlim : limitOf fs = Except.ok lim) :
    (∀ out, ((fetch_leads fs out).success = true ∧ (fetch_leads fs out).error = none) ∨
       ((fetch_leads fs out).success = false ∧
        (fetch_leads fs out).error.isSome = true ∧
        (fetch_leads fs out).results = [])) ∧
    (∀ status text j, status < 200 ∨ 300 ≤ status →
       fetch_leads fs (HttpOutcome.response status text j) =
         { success := false,
           error := some ("API Error " ++ toString status ++ ": " ++ text),
           results := [] } ∧
       strIn (toString status) ("API Error " ++ toString status ++ ": " ++ text) = true ∧
       strIn text ("API Error " ++ toString status ++ ": " ++ text) = true) ∧
    (fetch_leads fs HttpOutcome.timeout =
      { success := false, error := some "API Connection Timeout", results := [] }) ∧
    (∀ text, fetch_leads fs (HttpOutcome.response 200 text none) =
      { success := false, error := some "Invalid JSON response from API",
        results := [] }) := by
  refine ⟨?_, ?_, ?_, ?_⟩
  · intro out
    cases out with
    | timeout => right; simp [fetch_leads, hlim]
    | connError e => right; simp [fetch_leads, hlim]
    | response status text j =>
        by_cases hst : status = 200
        · subst hst
          cases j with
          | none => right; simp [fetch_leads, hlim]
          | some results => left; simp [fetch_leads, hlim]
        · right; simp [fetch_leads, hlim, hst]
  · intro status text j h2
    have hne : status ≠ 200 := by omega
    refine ⟨by simp [fetch_leads, hlim, hne], (strIn_api_error _ _).1,
      (strIn_api_error _ _).2⟩
  · simp [fetch_leads, hlim]
  · intro text
    simp [fetch_leads, hlim]

/-- C9 witness: the non-2xx case instantiated at an HTTP 500 response
with body "boom" and an empty FilterSet. -/
theorem c9_tagged_errors_witness :
    fetch_leads {} (HttpOutcome.response 500 "boom" none) =
      { success := false,
        error := some ("API Error " ++ toString (500 : Nat) ++ ": " ++ "boom"),
        results := [] } ∧
    strIn (toString (500 : Nat))
      ("API Error " ++ toString (500 : Nat) ++ ": " ++ "boom") = true := by
  have h := (c9_tagged_errors {} 500 rfl).2.1 500 "boom" none (by omega)
  exact ⟨h.1, h.2.1⟩

/-- Record kept by the code although its industry does not match the
requested industry filter. -/
def c2Lead : Lead := { location := "United States", company_industry := "Retail" }

/-- FilterSet whose location filter goes upstream while its industry
filter should, per the spec, be applied locally. -/
def c2Filters : FilterSet :=
  { location := some "united states", industry := some "construction" }

/-- C2: the local industry stage never filters anything — its guard is
false for every FilterSet, because the code checks `not filters.get('industry')`
before reading the very same key. At the concrete input the location filter
went upstream (company_industry was not sent), the record's industry does
not contain the requested one, yet the record is kept. -/
theorem c2_industry_filter_dead :
    (∀ fs : FilterSet, industryGuard fs = false) ∧
    (build_request_body c2Filters).company_industry = none ∧
    (build_request_body c2Filters).location = some ["united states"] ∧
    filter_leads_locally [c2Lead] c2Filters = [c2Lead] ∧
    strIn (industryQuery c2Filters) (pyLower c2Lead.company_industry) = false := by
  refine ⟨?_, rfl, rfl, by decide, by decide⟩
  intro fs
  cases hg : truthy fs.industry
  · have hempty : fs.industry.getD "" = "" := by
      have h' := hg
      unfold truthy at h'
      simpa using h'
    simp [industryGuard, industryQuery, hg, hempty,
      show pyLower "" = "" from rfl]
  · simp [industryGuard, hg]

/-- C3 counterexample: with no limit key the body carries limit 500, not
50; and an unparsable limit value makes `fetch_leads` return a failure
result instead of degrading to the default. -/
theorem c3_counterexample :
    (sentBody {}).map RequestBody.limit = some (some 500) ∧
    (fetch_leads { limit := some "abc" }
        (HttpOutcome.response 200 "ok" (some []))).success = false ∧
    (fetch_leads { limit := some "abc" }
        (HttpOutcome.response 200 "ok" (some []))).error =
      some ("Unexpected Error: " ++ pyIntErrMsg "abc") := by
  exact ⟨rfl, rfl, rfl⟩

/-- C3 amended: the limit is always emitted and clamped to 1000 when it
parses, defaults to 500 when absent, and an unparsable limit yields a
tagged failure result (no request is sent, no exception propagates). -/
theorem c3_limit_amended (fs : FilterSet) :
    (fs.limit = none → (sentBody fs).map RequestBody.limit = some (some 500)) ∧
    (∀ s n, fs.limit = some s → pyInt s = some n →
       (sentBody fs).map RequestBody.limit = some (some (min n 1000))) ∧
    (∀ s, fs.limit = some s → pyInt s = none →
       sentBody fs = none ∧
       ∀ out, fetch_leads fs out =
         { success := false,
           error := some ("Unexpected Error: " ++ pyIntErrMsg s),
           results := [] }) := by
  refine ⟨?_, ?_, ?_⟩
  · intro h
    simp [sentBody, limitOf, h, bodyWithLimit, Except.toOption]
  · intro s n hs hn
    simp [sentBody, limitOf, hs, hn, bodyWithLimit, Except.toOption]
  · intro s hs hn
    constructor
    · simp [sentBody, limitOf, hs, hn, Except.toOption]
    · intro out
      simp [fetch_leads, limitOf, hs, hn]

/-- C3 witness: clamping at limit "2000" and the no-request behaviour at
the unparsable limit "abc". -/
theorem c3_limit_amended_witness :
    (sentBody { limit := some "2000" }).map RequestBody.limit = some (some 1000) ∧
    sentBody { limit := some "abc" } = none := by
  refine ⟨((c3_limit_amended { limit := some "2000" }).2.1 "2000" 2000 rfl
    (by decide)).trans (by decide), ?_⟩
  exact ((c3_limit_amended { limit := some "abc" }).2.2 "abc" rfl (by decide)).1

/-- C10 witness: the sublist and membership facts instantiated at a
concrete record and FilterSet. -/
theorem c10_output_sublist_witness :
    List.Sublist (filter_leads_locally [engLead] { title := some "engineer" })
        [engLead] ∧
    engLead ∈ [engLead] := by
  have h := c10_output_sublist [engLead] { title := some "engineer" }
  exact ⟨h.1, h.2.2.1 engLead (by decide)⟩
